import Mathlib

/-!
Shallow embedding of the atomic-rs crate: the memory ordering enumeration,
the spinlock fallback engine of src/fallback.rs, and the dispatch and
eligibility logic of the three backend variants (src/ops.rs, src/stable.rs,
src/nightly.rs). Machine integers are modelled as Nat bit patterns with
explicit reduction modulo 2 ^ w; panicking paths are modelled with Option;
a fallible compare-exchange returns an Except value.
-/

/-- Memory orderings, as in core::sync::atomic::Ordering. -/
inductive MemOrdering where
  | relaxed
  | acquire
  | release
  | acqrel
  | seqcst
  deriving DecidableEq, Repr

/-- SpinLock::lock (src/fallback.rs, lines 25-41): the success ordering used
on the compare_exchange_weak of the lock cell, given the ordering of the atomic
operation the lock protects. SeqCst stays SeqCst, anything else acquires
with Acquire. -/
def SpinLock.lockOrder (order : MemOrdering) : MemOrdering :=
  match order with
  | .seqcst => .seqcst
  | _ => .acquire

/-- SpinLock::unlock (src/fallback.rs, lines 43-53): the ordering used on the
store of 0 to the lock cell. SeqCst stays SeqCst, anything else releases with
Release. -/
def SpinLock.unlockOrder (order : MemOrdering) : MemOrdering :=
  match order with
  | .seqcst => .seqcst
  | _ => .release

/-- The orderings involved in the use a fallback operation makes of its spinlock:
the argument handed to lock(), the ordering SpinLock::lock then uses on the
cell, the order field of the guard when it is dropped, and the ordering
SpinLock::unlock then uses on the cell. -/
structure LockTrace where
  lockArg : MemOrdering
  acquireUsed : MemOrdering
  unlockArg : MemOrdering
  releaseUsed : MemOrdering
  deriving DecidableEq, Repr

/-- Trace of a fallback operation that calls lock(addr, a) and whose LockGuard
holds ordering b when dropped (src/fallback.rs, lines 100-121). -/
def mkTrace (a b : MemOrdering) : LockTrace :=
  ⟨a, SpinLock.lockOrder a, b, SpinLock.unlockOrder b⟩

/-- Whether a compare-exchange Result is the success variant. -/
def casOk {α : Type} : Except α α → Bool
  | Except.ok _ => true
  | Except.error _ => false

/-- The prior value a compare-exchange Result carries in either variant. -/
def casPrior {α : Type} : Except α α → α
  | Except.ok v => v
  | Except.error v => v

/-- Interpretation, as a signed two-complement integer, of a w-bit pattern. -/
def toInt (w n : Nat) : Int :=
  if n < 2 ^ (w - 1) then (n : Int) else (n : Int) - 2 ^ w

/-- Strict signed comparison of two w-bit patterns: the Ord of the signed
integer type the bytes are reinterpreted as. -/
def sltb (w : Nat) (a b : Nat) : Bool :=
  decide (toInt w a < toInt w b)

/-- Strict unsigned comparison of two bit patterns: the Ord of an unsigned
integer type. -/
def ultb (a b : Nat) : Bool :=
  decide (a < b)

namespace fallback

/-- Length of the SPINLOCKS array (src/fallback.rs, line 81). -/
def SPINLOCKS_len : Nat := 64

/-- fallback::lock_for_addr (src/fallback.rs, lines 85-98), as the index of
the chosen cell in SPINLOCKS: drop the low 4 bits, keep the next bits below
the table length as the preliminary index, shift a further 16 bits, fold
with xor, and mask by the table length again. -/
def lock_for_addr (addr : Nat) : Nat :=
  let hash := addr >>> 4
  let low := hash &&& (SPINLOCKS_len - 1)
  let hash := hash >>> 16
  let hash := hash ^^^ low
  hash &&& (SPINLOCKS_len - 1)

/-- fallback::atomic_load (src/fallback.rs, lines 123-127): lock, plain read.
Result: (state after, value returned, lock trace). -/
def atomic_load {α : Type} (dst : α) (order : MemOrdering) : α × α × LockTrace :=
  (dst, dst, mkTrace order order)

/-- fallback::atomic_store (lines 129-133): lock, plain write. Result:
(state after, lock trace). -/
def atomic_store {α : Type} (dst val : α) (order : MemOrdering) : α × LockTrace :=
  (val, mkTrace order order)

/-- fallback::atomic_swap (lines 135-139): lock, replace, return the old
value. Result: (state after, value returned, lock trace). -/
def atomic_swap {α : Type} (dst val : α) (order : MemOrdering) : α × α × LockTrace :=
  (val, dst, mkTrace order order)

/-- fallback::atomic_compare_exchange (src/fallback.rs, lines 141-162): the
lock is taken at the success ordering, the stored value is read and its
bytes are compared with the bytes of the expected value (bytemuck::bytes_of,
not the Eq of the type); on equality the new value is written and the prior
value is returned as Ok; otherwise the order field of the guard is replaced by
the failure ordering and the prior value is returned as Err. Values are
modelled by their byte lists. Result: (state after, Result, lock trace). -/
def atomic_compare_exchange (dst current new : List Nat)
    (success failure : MemOrdering) :
    List Nat × Except (List Nat) (List Nat) × LockTrace :=
  let result := dst
  if result = current then
    (new, Except.ok result, mkTrace success success)
  else
    (dst, Except.error result, mkTrace success failure)

/-- fallback::atomic_add (lines 164-173) at an integer type of w bits:
Wrapping addition of the stored value and the operand, returning the prior
value. Result: (state after, value returned, lock trace). -/
def atomic_add (w dst val : Nat) (order : MemOrdering) : Nat × Nat × LockTrace :=
  ((dst + val) % 2 ^ w, dst, mkTrace order order)

/-- fallback::atomic_sub (lines 175-184) at an integer type of w bits:
Wrapping subtraction (for patterns below 2 ^ w), returning the prior
value. -/
def atomic_sub (w dst val : Nat) (order : MemOrdering) : Nat × Nat × LockTrace :=
  ((dst + (2 ^ w - val)) % 2 ^ w, dst, mkTrace order order)

/-- fallback::atomic_and (lines 186-192). -/
def atomic_and (dst val : Nat) (order : MemOrdering) : Nat × Nat × LockTrace :=
  (dst &&& val, dst, mkTrace order order)

/-- fallback::atomic_or (lines 194-200). -/
def atomic_or (dst val : Nat) (order : MemOrdering) : Nat × Nat × LockTrace :=
  (dst ||| val, dst, mkTrace order order)

/-- fallback::atomic_xor (lines 202-208). -/
def atomic_xor (dst val : Nat) (order : MemOrdering) : Nat × Nat × LockTrace :=
  (dst ^^^ val, dst, mkTrace order order)

/-- fallback::atomic_min (lines 210-216) for a type whose Ord has the strict
order lt: cmp::min(result, val) is val when val is strictly below the
stored value, else the stored value. -/
def atomic_min {α : Type} (lt : α → α → Bool) (dst val : α)
    (order : MemOrdering) : α × α × LockTrace :=
  ((if lt val dst then val else dst), dst, mkTrace order order)

/-- fallback::atomic_max (lines 218-224): cmp::max(result, val) is the stored
value when val is strictly below it, else val. -/
def atomic_max {α : Type} (lt : α → α → Bool) (dst val : α)
    (order : MemOrdering) : α × α × LockTrace :=
  ((if lt val dst then dst else val), dst, mkTrace order order)

end fallback

/-- Build-time capability flags probed by build.rs (has_atomic_u8 and so on),
consumed by the cfg attributes of src/ops.rs. -/
structure Flags where
  has_atomic_u8 : Bool
  has_atomic_u16 : Bool
  has_atomic_u32 : Bool
  has_atomic_u64 : Bool
  has_atomic_usize : Bool
  has_atomic_i8 : Bool
  has_atomic_i16 : Bool
  has_atomic_i32 : Bool
  has_atomic_i64 : Bool
  has_atomic_isize : Bool
  has_fetch_min : Bool
  deriving DecidableEq, Repr

/-- Which path a dispatcher takes for a type: a native atomic of the given
byte width, or the spinlock fallback engine. -/
inductive Route where
  | native (width : Nat)
  | fallback
  deriving DecidableEq, Repr

namespace ops

/-- ops::atomic_is_lock_free (src/ops.rs, lines 97-106). su and au stand for
size_of and align_of of usize. -/
def atomic_is_lock_free (f : Flags) (su au size align : Nat) : Bool :=
  (f.has_atomic_u8 && (size == 1) && decide (1 ≤ align))
    || (f.has_atomic_u16 && (size == 2) && decide (2 ≤ align))
    || (f.has_atomic_u32 && (size == 4) && decide (4 ≤ align))
    || (f.has_atomic_u64 && (size == 8) && decide (8 ≤ align))
    || (f.has_atomic_usize && (size == su) && decide (au ≤ align))

/-- The match_atomic dispatch of src/ops.rs (lines 18-54): the first arm whose
cfg flag is on, whose size pattern matches and whose alignment guard holds;
no arm means the fallback engine. -/
def match_atomic (f : Flags) (su au size align : Nat) : Route :=
  if f.has_atomic_u8 = true ∧ size = 1 ∧ 1 ≤ align then .native 1
  else if f.has_atomic_u16 = true ∧ size = 2 ∧ 2 ≤ align then .native 2
  else if f.has_atomic_u32 = true ∧ size = 4 ∧ 4 ≤ align then .native 4
  else if f.has_atomic_u64 = true ∧ size = 8 ∧ 8 ≤ align then .native 8
  else if f.has_atomic_usize = true ∧ size = su ∧ au ≤ align then .native su
  else .fallback

/-- The match_signed_atomic dispatch of src/ops.rs (lines 59-95); si and ai
stand for size_of and align_of of isize. -/
def match_signed_atomic (f : Flags) (si ai size align : Nat) : Route :=
  if f.has_atomic_i8 = true ∧ size = 1 ∧ 1 ≤ align then .native 1
  else if f.has_atomic_i16 = true ∧ size = 2 ∧ 2 ≤ align then .native 2
  else if f.has_atomic_i32 = true ∧ size = 4 ∧ 4 ≤ align then .native 4
  else if f.has_atomic_i64 = true ∧ size = 8 ∧ 8 ≤ align then .native 8
  else if f.has_atomic_isize = true ∧ size = si ∧ ai ≤ align then .native si
  else .fallback

/-- Routing of ops::atomic_min and ops::atomic_max (src/ops.rs, lines
256-280): native only under cfg(has_fetch_min) and then through
match_signed_atomic; without the flag, always the fallback engine. -/
def route_min (f : Flags) (si ai size align : Nat) : Route :=
  if f.has_fetch_min then match_signed_atomic f si ai size align else .fallback

/-- Routing of ops::atomic_umin and ops::atomic_umax (lines 282-306): native
only under cfg(has_fetch_min) and then through match_atomic. -/
def route_umin (f : Flags) (su au size align : Nat) : Route :=
  if f.has_fetch_min then match_atomic f su au size align else .fallback

end ops

namespace stable

/-- stable::atomic_is_lock_free (src/stable.rs, lines 16-20): only a type of
exactly the size of AtomicUsize (the pointer width su), aligned at least to
that size, is lock-free. -/
def atomic_is_lock_free (su size align : Nat) : Bool :=
  (size == su) && decide (su ≤ align)

/-- The native-or-fallback test repeated by every operation of src/stable.rs:
same condition as its atomic_is_lock_free. -/
def route (su size align : Nat) : Route :=
  if size = su ∧ su ≤ align then .native su else .fallback

/-- stable::atomic_compare_exchange native path (src/stable.rs, lines 61-84):
compare_and_swap of the transmuted words at the success ordering; the
failure ordering parameter is ignored by the source (bound as an
underscore). Result: (state after, Result). -/
def atomic_compare_exchange_native (dst current new : Nat)
    (_success _failure : MemOrdering) : Nat × Except Nat Nat :=
  let result_val := dst
  if current = result_val then (new, Except.ok result_val)
  else (dst, Except.error result_val)

end stable

/-- The target_has_atomic cfg flags consumed by src/nightly.rs, one per
native width. -/
structure NightlyFlags where
  atomic8 : Bool
  atomic16 : Bool
  atomic32 : Bool
  atomic64 : Bool
  deriving DecidableEq, Repr

namespace nightly

/-- nightly::atomic_is_lock_free (src/nightly.rs, lines 16-29): widths 1, 2,
4, 8 with an alignment guard; there is no pointer-width arm. -/
def atomic_is_lock_free (f : NightlyFlags) (size align : Nat) : Bool :=
  if f.atomic8 = true ∧ size = 1 ∧ 1 ≤ align then true
  else if f.atomic16 = true ∧ size = 2 ∧ 2 ≤ align then true
  else if f.atomic32 = true ∧ size = 4 ∧ 4 ≤ align then true
  else if f.atomic64 = true ∧ size = 8 ∧ 8 ≤ align then true
  else false

/-- Dispatch of nightly::atomic_load, atomic_store, atomic_swap and the two
compare-exchange forms (src/nightly.rs, lines 42-62 and peers): size and
alignment both checked. -/
def route_load (f : NightlyFlags) (size align : Nat) : Route :=
  if f.atomic8 = true ∧ size = 1 ∧ 1 ≤ align then .native 1
  else if f.atomic16 = true ∧ size = 2 ∧ 2 ≤ align then .native 2
  else if f.atomic32 = true ∧ size = 4 ∧ 4 ≤ align then .native 4
  else if f.atomic64 = true ∧ size = 8 ∧ 8 ≤ align then .native 8
  else .fallback

/-- Dispatch of nightly::atomic_add (src/nightly.rs, lines 312-327), which is
also the shape of atomic_sub, atomic_and, atomic_or and atomic_xor there:
the match is on the size alone, with no alignment guard. -/
def route_add (f : NightlyFlags) (size : Nat) : Route :=
  if f.atomic8 = true ∧ size = 1 then .native 1
  else if f.atomic16 = true ∧ size = 2 then .native 2
  else if f.atomic32 = true ∧ size = 4 then .native 4
  else if f.atomic64 = true ∧ size = 8 then .native 8
  else .fallback

/-- nightly::atomic_load_raw (src/nightly.rs, lines 31-40): the intrinsic
chosen by the ordering; the Release and AcqRel arms panic, modelled as
none. The state dst is the loaded cell value. -/
def atomic_load_raw (dst : Nat) (order : MemOrdering) : Option Nat :=
  match order with
  | .acquire => some dst
  | .relaxed => some dst
  | .seqcst => some dst
  | .release => none
  | .acqrel => none

/-- nightly::atomic_store_raw (lines 65-73): the Acquire and AcqRel arms
panic; otherwise the new cell value is val. -/
def atomic_store_raw (dst val : Nat) (order : MemOrdering) : Option Nat :=
  match order with
  | .release => some val
  | .relaxed => some val
  | .seqcst => some val
  | .acquire => none
  | .acqrel => none

/-- The (success, failure) pairs for which nightly::atomic_compare_exchange_raw
(lines 131-168) has an intrinsic arm; every other pair panics. -/
def cxchg_has_arm (success failure : MemOrdering) : Bool :=
  match success, failure with
  | .acquire, .acquire => true
  | .release, .relaxed => true
  | .acqrel, .acquire => true
  | .relaxed, .relaxed => true
  | .seqcst, .seqcst => true
  | .acquire, .relaxed => true
  | .acqrel, .relaxed => true
  | .seqcst, .relaxed => true
  | .seqcst, .acquire => true
  | _, _ => false

/-- nightly::atomic_compare_exchange_raw on a native cell: none on the
panicking arms, else the cas outcome (state after, Result). -/
def atomic_compare_exchange_raw (dst current new : Nat)
    (success failure : MemOrdering) : Option (Nat × Except Nat Nat) :=
  if cxchg_has_arm success failure then
    if dst = current then some (new, Except.ok dst)
    else some (dst, Except.error dst)
  else none

end nightly

/-- Modelled from the spec: the eligibility rule of section 4.1, written from
the words of the spec for refinement comparison with the backend variants. A
type is eligible iff its size exactly equals one of the widths 1, 2, 4, 8
or the pointer width su whose capability flag is set, and its alignment is
at least that width. -/
def spec_lock_free_rule (f : Flags) (su size align : Nat) : Bool :=
  (f.has_atomic_u8 && (size == 1) && decide (1 ≤ align))
    || (f.has_atomic_u16 && (size == 2) && decide (2 ≤ align))
    || (f.has_atomic_u32 && (size == 4) && decide (4 ≤ align))
    || (f.has_atomic_u64 && (size == 8) && decide (8 ≤ align))
    || (f.has_atomic_usize && (size == su) && decide (su ≤ align))

/-- The nightly target flags seen as a rule flag table: widths 1, 2, 4, 8
taken from the target flags, and no pointer-width capability. -/
def nightlyAsFlags (f : NightlyFlags) : Flags :=
  ⟨f.atomic8, f.atomic16, f.atomic32, f.atomic64, false,
    false, false, false, false, false, false⟩

/-- The effective flag table of the stable backend: the pointer width only. -/
def stableFlags : Flags :=
  ⟨false, false, false, false, true, false, false, false, false, false, false⟩

/-- Modelled from the amended claim: size eligibility alone, with no
alignment requirement, as matched by the nightly add, sub, and, or, xor
dispatch. -/
def nightly_sized_eligible (f : NightlyFlags) (size : Nat) : Bool :=
  (f.atomic8 && (size == 1)) || (f.atomic16 && (size == 2))
    || (f.atomic32 && (size == 4)) || (f.atomic64 && (size == 8))

/-- Helper: masking with 63 is reduction modulo 64. -/
theorem land_63_eq_mod (x : Nat) : x &&& 63 = x % 64 := by
  have h := Nat.and_pow_two_sub_one_eq_mod x 6
  norm_num at h
  exact h

/-- Claim C1: fallback compare_exchange succeeds and stores the new value
exactly when the stored byte pattern equals the expected byte pattern,
compared byte for byte; on mismatch the stored bytes are unchanged; in
both cases the prior byte pattern is returned, as Ok on success and as Err
on failure. -/
theorem C1_compare_exchange_bytewise (dst current new : List Nat)
    (success failure : MemOrdering) :
    casOk (fallback.atomic_compare_exchange dst current new success failure).2.1
        = decide (dst = current)
      ∧ (fallback.atomic_compare_exchange dst current new success failure).1
        = (if dst = current then new else dst)
      ∧ casPrior (fallback.atomic_compare_exchange dst current new success failure).2.1
        = dst := by
  unfold fallback.atomic_compare_exchange
  by_cases h : dst = current <;> simp [h, casOk, casPrior]

/-- Helper: a capability disjunct with a width guard is false when its
condition fails. -/
theorem band3_eq_false (b : Bool) (m k align : Nat)
    (h : ¬(b = true ∧ m = k ∧ k ≤ align)) :
    (b && (m == k) && decide (k ≤ align)) = false := by
  cases b
  · simp
  · by_cases hm : m = k
    · by_cases ha : k ≤ align
      · exact absurd ⟨rfl, hm, ha⟩ h
      · simp [ha]
    · simp [hm]

/-- Helper: a capability disjunct with no alignment guard is false when its
condition fails. -/
theorem band2_eq_false (b : Bool) (m k : Nat) (h : ¬(b = true ∧ m = k)) :
    (b && (m == k)) = false := by
  cases b
  · simp
  · by_cases hm : m = k
    · exact absurd ⟨rfl, hm⟩ h
    · simp [hm]

/-- Claim C2 counterexample: with every capability flag set and pointer width
8, a type of size 1 and alignment 1 satisfies the eligibility rule (width 1
flag set, alignment at least 1) and the ops variant agrees, but the stable
variant answers false, so the variants are not identical as the claim
states. -/
theorem C2_counterexample :
    spec_lock_free_rule
        ⟨true, true, true, true, true, true, true, true, true, true, true⟩ 8 1 1 = true
      ∧ ops.atomic_is_lock_free
        ⟨true, true, true, true, true, true, true, true, true, true, true⟩ 8 8 1 1 = true
      ∧ stable.atomic_is_lock_free 8 1 1 = false := by
  decide

/-- Claim C2 amended: each variant answers as a pure function of size,
alignment and its flag table, and each implements the eligibility rule
relative to its own effective widths: ops implements the full rule (its
pointer arm guarded by align_of of usize, here taken equal to the pointer
width); nightly implements the rule with no pointer-width capability;
stable implements the rule with only the pointer-width capability. The
three variants do not answer identically. -/
theorem C2_lock_free_rule_per_variant (f : Flags) (nf : NightlyFlags)
    (su size align : Nat) :
    ops.atomic_is_lock_free f su su size align = spec_lock_free_rule f su size align
      ∧ nightly.atomic_is_lock_free nf size align
        = spec_lock_free_rule (nightlyAsFlags nf) su size align
      ∧ stable.atomic_is_lock_free su size align
        = spec_lock_free_rule stableFlags su size align := by
  refine ⟨rfl, ?_, ?_⟩
  · unfold nightly.atomic_is_lock_free
    split_ifs with h1 h2 h3 h4
    · obtain ⟨e1, e2, e3⟩ := h1
      simp [spec_lock_free_rule, nightlyAsFlags, e1, e2, e3]
    · obtain ⟨e1, e2, e3⟩ := h2
      simp [spec_lock_free_rule, nightlyAsFlags, e1, e2, e3]
    · obtain ⟨e1, e2, e3⟩ := h3
      simp [spec_lock_free_rule, nightlyAsFlags, e1, e2, e3]
    · obtain ⟨e1, e2, e3⟩ := h4
      simp [spec_lock_free_rule, nightlyAsFlags, e1, e2, e3]
    · simp [spec_lock_free_rule, nightlyAsFlags,
        band3_eq_false _ _ _ _ h1, band3_eq_false _ _ _ _ h2,
        band3_eq_false _ _ _ _ h3, band3_eq_false _ _ _ _ h4]
  · simp [stable.atomic_is_lock_free, spec_lock_free_rule, stableFlags]

/-- Claim C3 counterexample: with every nightly width flag set, a type of
size 4 and alignment 1 fails the eligibility check (alignment below the
width), yet nightly atomic_add dispatches it to the native width-4 path and
not to the fallback engine. -/
theorem C3_counterexample :
    nightly.atomic_is_lock_free ⟨true, true, true, true⟩ 4 1 = false
      ∧ nightly.route_add ⟨true, true, true, true⟩ 4 = Route.native 4 := by
  decide

/-- Claim C3 amended: in the ops backend the match_atomic operations (load,
store, swap, compare-exchange, add, sub, and, or, xor) take the native path
exactly when the eligibility check passes, and min and max are further
gated on has_fetch_min, always falling back without it; in the nightly
backend load (and store, swap, compare-exchange) routes native exactly when
eligible, but add, sub, and, or and xor match on the size alone, so an
under-aligned type of native size still takes the native path there. -/
theorem C3_dispatch_vs_eligibility (f : Flags) (nf : NightlyFlags)
    (su size align : Nat) :
    (ops.match_atomic f su su size align = Route.fallback
        ↔ ops.atomic_is_lock_free f su su size align = false)
      ∧ (f.has_fetch_min = false → ops.route_min f su su size align = Route.fallback)
      ∧ (nightly.route_load nf size align = Route.fallback
        ↔ nightly.atomic_is_lock_free nf size align = false)
      ∧ (nightly.route_add nf size = Route.fallback
        ↔ nightly_sized_eligible nf size = false) := by
  refine ⟨?_, ?_, ?_, ?_⟩
  · unfold ops.match_atomic
    split_ifs with h1 h2 h3 h4 h5
    · obtain ⟨e1, e2, e3⟩ := h1
      simp [ops.atomic_is_lock_free, e1, e2, e3]
    · obtain ⟨e1, e2, e3⟩ := h2
      simp [ops.atomic_is_lock_free, e1, e2, e3]
    · obtain ⟨e1, e2, e3⟩ := h3
      simp [ops.atomic_is_lock_free, e1, e2, e3]
    · obtain ⟨e1, e2, e3⟩ := h4
      simp [ops.atomic_is_lock_free, e1, e2, e3]
    · obtain ⟨e1, e2, e3⟩ := h5
      simp [ops.atomic_is_lock_free, e1, e2, e3]
    · simp [ops.atomic_is_lock_free,
        band3_eq_false _ _ _ _ h1, band3_eq_false _ _ _ _ h2,
        band3_eq_false _ _ _ _ h3, band3_eq_false _ _ _ _ h4,
        band3_eq_false _ _ _ _ h5]
  · intro hmin
    simp [ops.route_min, hmin]
  · unfold nightly.route_load
    split_ifs with h1 h2 h3 h4
    · obtain ⟨e1, e2, e3⟩ := h1
      simp [nightly.atomic_is_lock_free, e1, e2, e3]
    · obtain ⟨e1, e2, e3⟩ := h2
      simp [nightly.atomic_is_lock_free, h1, e1, e2, e3]
    · obtain ⟨e1, e2, e3⟩ := h3
      simp [nightly.atomic_is_lock_free, h1, h2, e1, e2, e3]
    · obtain ⟨e1, e2, e3⟩ := h4
      simp [nightly.atomic_is_lock_free, h1, h2, h3, e1, e2, e3]
    · simp [nightly.atomic_is_lock_free, h1, h2, h3, h4]
  · unfold nightly.route_add
    split_ifs with h1 h2 h3 h4
    · obtain ⟨e1, e2⟩ := h1
      simp [nightly_sized_eligible, e1, e2]
    · obtain ⟨e1, e2⟩ := h2
      simp [nightly_sized_eligible, e1, e2]
    · obtain ⟨e1, e2⟩ := h3
      simp [nightly_sized_eligible, e1, e2]
    · obtain ⟨e1, e2⟩ := h4
      simp [nightly_sized_eligible, e1, e2]
    · simp [nightly_sized_eligible,
        band2_eq_false _ _ _ h1, band2_eq_false _ _ _ h2,
        band2_eq_false _ _ _ h3, band2_eq_false _ _ _ h4]

/-- Claim C3 amended, witness: with has_fetch_min off and every other flag
set, an eligible 4-byte aligned type is still routed to the fallback engine
by ops atomic_min. -/
theorem C3_dispatch_vs_eligibility_witness :
    ops.route_min ⟨true, true, true, true, true, true, true, true, true, true, false⟩
      8 8 4 4 = Route.fallback :=
  (C3_dispatch_vs_eligibility
    ⟨true, true, true, true, true, true, true, true, true, true, false⟩
    ⟨true, true, true, true⟩ 8 4 4).2.1 rfl

/-- Claim C4: every fallback operation that takes a single caller ordering
acquires its spinlock cell with SeqCst and releases it with SeqCst when
that ordering is SeqCst, and acquires with Acquire and releases with
Release for any weaker ordering; this holds for load, store, swap, add,
sub, and, or, xor, min and max. -/
theorem C4_fallback_lock_orderings (order : MemOrdering) (w dst val : Nat)
    (lt : Nat → Nat → Bool) (bs vs : List Nat) :
    (let acq := (if order = MemOrdering.seqcst then MemOrdering.seqcst
      else MemOrdering.acquire)
     let rel := (if order = MemOrdering.seqcst then MemOrdering.seqcst
      else MemOrdering.release)
     ((fallback.atomic_load bs order).2.2.acquireUsed = acq
        ∧ (fallback.atomic_load bs order).2.2.releaseUsed = rel)
      ∧ ((fallback.atomic_store bs vs order).2.acquireUsed = acq
        ∧ (fallback.atomic_store bs vs order).2.releaseUsed = rel)
      ∧ ((fallback.atomic_swap bs vs order).2.2.acquireUsed = acq
        ∧ (fallback.atomic_swap bs vs order).2.2.releaseUsed = rel)
      ∧ ((fallback.atomic_add w dst val order).2.2.acquireUsed = acq
        ∧ (fallback.atomic_add w dst val order).2.2.releaseUsed = rel)
      ∧ ((fallback.atomic_sub w dst val order).2.2.acquireUsed = acq
        ∧ (fallback.atomic_sub w dst val order).2.2.releaseUsed = rel)
      ∧ ((fallback.atomic_and dst val order).2.2.acquireUsed = acq
        ∧ (fallback.atomic_and dst val order).2.2.releaseUsed = rel)
      ∧ ((fallback.atomic_or dst val order).2.2.acquireUsed = acq
        ∧ (fallback.atomic_or dst val order).2.2.releaseUsed = rel)
      ∧ ((fallback.atomic_xor dst val order).2.2.acquireUsed = acq
        ∧ (fallback.atomic_xor dst val order).2.2.releaseUsed = rel)
      ∧ ((fallback.atomic_min lt dst val order).2.2.acquireUsed = acq
        ∧ (fallback.atomic_min lt dst val order).2.2.releaseUsed = rel)
      ∧ ((fallback.atomic_max lt dst val order).2.2.acquireUsed = acq
        ∧ (fallback.atomic_max lt dst val order).2.2.releaseUsed = rel)) := by
  cases order <;>
    simp [fallback.atomic_load, fallback.atomic_store, fallback.atomic_swap,
      fallback.atomic_add, fallback.atomic_sub, fallback.atomic_and,
      fallback.atomic_or, fallback.atomic_xor, fallback.atomic_min,
      fallback.atomic_max, mkTrace, SpinLock.lockOrder, SpinLock.unlockOrder]

/-- Claim C5: the fallback compare-exchange hands the success ordering
of the caller to the lock acquisition, and the guard releasing the lock carries
the failure ordering exactly when the byte comparison failed, the success
ordering otherwise. -/
theorem C5_cas_failure_release (dst current new : List Nat)
    (success failure : MemOrdering) :
    (fallback.atomic_compare_exchange dst current new success failure).2.2.lockArg
        = success
      ∧ (fallback.atomic_compare_exchange dst current new success failure).2.2.unlockArg
        = (if dst = current then success else failure) := by
  unfold fallback.atomic_compare_exchange
  by_cases h : dst = current <;> simp [h, mkTrace]

/-- Claim C6 counterexample: a Release load is a contract-violating ordering,
yet a type routed to the fallback engine is not rejected: the fallback load
completes and returns the stored value, while the nightly native path
panics for the same ordering; likewise the stable compare-exchange with an
AcqRel failure ordering completes normally. -/
theorem C6_counterexample :
    (fallback.atomic_load (α := Nat) 5 MemOrdering.release).2.1 = 5
      ∧ nightly.atomic_load_raw 5 MemOrdering.release = none
      ∧ (stable.atomic_compare_exchange_native 7 7 9 MemOrdering.seqcst
          MemOrdering.acqrel).2 = Except.ok 7 :=
  ⟨rfl, rfl, rfl⟩

/-- Claim C6 amended: the raw native paths of the nightly backend reject the
contract-violating orderings with a panic: Release or AcqRel for a load,
Acquire or AcqRel for a store, and every compare-exchange pair whose
failure ordering is Release or AcqRel (among the pairs with no intrinsic
arm); but the fallback engine validates nothing and completes normally at
every ordering, and the compare-exchange of the stable backend ignores its
failure ordering entirely. -/
theorem C6_ordering_rejection (dst val current new : Nat)
    (order success failure failure2 : MemOrdering) :
    nightly.atomic_load_raw dst MemOrdering.release = none
      ∧ nightly.atomic_load_raw dst MemOrdering.acqrel = none
      ∧ nightly.atomic_store_raw dst val MemOrdering.acquire = none
      ∧ nightly.atomic_store_raw dst val MemOrdering.acqrel = none
      ∧ nightly.atomic_compare_exchange_raw dst current new success
          MemOrdering.release = none
      ∧ nightly.atomic_compare_exchange_raw dst current new success
          MemOrdering.acqrel = none
      ∧ (fallback.atomic_load (α := Nat) dst order).2.1 = dst
      ∧ (fallback.atomic_store (α := Nat) dst val order).1 = val
      ∧ stable.atomic_compare_exchange_native dst current new success failure
        = stable.atomic_compare_exchange_native dst current new success failure2 := by
  refine ⟨rfl, rfl, rfl, rfl, ?_, ?_, rfl, rfl, rfl⟩
  · cases success <;> rfl
  · cases success <;> rfl

/-- Claim C7: the fallback add and sub on a w-bit integer type return the
prior value and store the wraparound sum and difference modulo 2 ^ w, a
valid w-bit pattern; in particular no trap occurs at the maximum value. -/
theorem C7_add_sub_wraparound (w dst val : Nat) (order : MemOrdering)
    (hd : dst < 2 ^ w) (hv : val < 2 ^ w) :
    (fallback.atomic_add w dst val order).2.1 = dst
      ∧ (fallback.atomic_sub w dst val order).2.1 = dst
      ∧ ((fallback.atomic_add w dst val order).1 : Int)
        = ((dst : Int) + (val : Int)) % ((2 : Int) ^ w)
      ∧ ((fallback.atomic_sub w dst val order).1 : Int)
        = ((dst : Int) - (val : Int)) % ((2 : Int) ^ w)
      ∧ (fallback.atomic_add w dst val order).1 < 2 ^ w
      ∧ (fallback.atomic_sub w dst val order).1 < 2 ^ w := by
  have hpos : 0 < 2 ^ w := pow_pos (by norm_num) w
  refine ⟨rfl, rfl, ?_, ?_, Nat.mod_lt _ hpos, Nat.mod_lt _ hpos⟩
  · unfold fallback.atomic_add
    push_cast
    ring_nf
  · unfold fallback.atomic_sub
    have hle : val ≤ 2 ^ w := Nat.le_of_lt hv
    have h1 : (((dst + (2 ^ w - val)) % 2 ^ w : Nat) : Int)
        = ((dst : Int) + ((2 : Int) ^ w - (val : Int))) % ((2 : Int) ^ w) := by
      push_cast [hle]
      ring_nf
    rw [h1]
    have h2 : (dst : Int) + ((2 : Int) ^ w - (val : Int))
        = ((dst : Int) - (val : Int)) + ((2 : Int) ^ w) * 1 := by ring
    rw [h2, Int.add_mul_emod_self_left]

/-- Claim C7 witness: at width 8, adding 1 to the maximum pattern 255 wraps
to 0 and returns 255. -/
theorem C7_add_sub_wraparound_witness :
    (fallback.atomic_add 8 255 1 MemOrdering.relaxed).2.1 = 255
      ∧ (fallback.atomic_sub 8 255 1 MemOrdering.relaxed).2.1 = 255
      ∧ ((fallback.atomic_add 8 255 1 MemOrdering.relaxed).1 : Int)
        = (((255 : Nat) : Int) + ((1 : Nat) : Int)) % ((2 : Int) ^ 8)
      ∧ ((fallback.atomic_sub 8 255 1 MemOrdering.relaxed).1 : Int)
        = (((255 : Nat) : Int) - ((1 : Nat) : Int)) % ((2 : Int) ^ 8)
      ∧ (fallback.atomic_add 8 255 1 MemOrdering.relaxed).1 < 2 ^ 8
      ∧ (fallback.atomic_sub 8 255 1 MemOrdering.relaxed).1 < 2 ^ 8 := by
  exact C7_add_sub_wraparound 8 255 1 MemOrdering.relaxed (by decide) (by decide)

/-- Claim C8: the fallback min and max at a signed w-bit type store the
smaller resp. larger of prior value and operand under the signed two-complement
order, and the same operations at an unsigned type use the unsigned order;
each returns the prior value, the stored value is always one of the two
arguments, and max with an operand equal to the stored value changes
nothing. -/
theorem C8_min_max (w dst val : Nat) (order : MemOrdering) :
    (fallback.atomic_min (sltb w) dst val order).2.1 = dst
      ∧ toInt w (fallback.atomic_min (sltb w) dst val order).1
        = min (toInt w dst) (toInt w val)
      ∧ ((fallback.atomic_min (sltb w) dst val order).1 = dst
        ∨ (fallback.atomic_min (sltb w) dst val order).1 = val)
      ∧ (fallback.atomic_max (sltb w) dst val order).2.1 = dst
      ∧ toInt w (fallback.atomic_max (sltb w) dst val order).1
        = max (toInt w dst) (toInt w val)
      ∧ (fallback.atomic_min ultb dst val order).1 = min dst val
      ∧ (fallback.atomic_min ultb dst val order).2.1 = dst
      ∧ (fallback.atomic_max ultb dst val order).1 = max dst val
      ∧ (fallback.atomic_max ultb dst val order).2.1 = dst
      ∧ (fallback.atomic_max (sltb w) dst dst order).1 = dst
      ∧ (fallback.atomic_max ultb dst dst order).1 = dst := by
  unfold fallback.atomic_min fallback.atomic_max sltb ultb
  refine ⟨rfl, ?_, ?_, rfl, ?_, ?_, rfl, ?_, rfl, ?_, ?_⟩
  · simp only [decide_eq_true_eq]
    split_ifs with h <;> omega
  · simp only [decide_eq_true_eq]
    split_ifs with h
    · exact Or.inr rfl
    · exact Or.inl rfl
  · simp only [decide_eq_true_eq]
    split_ifs with h <;> omega
  · simp only [decide_eq_true_eq]
    split_ifs with h <;> omega
  · simp only [decide_eq_true_eq]
    split_ifs with h <;> omega
  · split_ifs with h <;> rfl
  · split_ifs with h <;> rfl

/-- Claim C9 counterexample: a two-byte value at address 15 occupies
addresses 15 and 15 + 1, yet those two addresses select different lock
cells (indices 0 and 1): discarding the low 4 bits merges only addresses
of the same 16-byte block, not every pair of bytes of one operation. -/
theorem C9_counterexample :
    fallback.lock_for_addr 15 = 0 ∧ fallback.lock_for_addr (15 + 1) = 1 := by
  decide

/-- Claim C9 amended: the lock index is exactly the two-stage hash taking
(addr right-shifted 4) modulo 64, folded by xor with addr right-shifted 20,
modulo 64 again; and two addresses agreeing from bit 4 upward (the same
16-byte block) select the same lock cell, so the byte offsets of one
operation share the lock of the base address exactly while the operation stays
inside one 16-byte block. -/
theorem C9_hash_structure (addr a d : Nat) (h : a >>> 4 = (a + d) >>> 4) :
    fallback.lock_for_addr addr = ((addr >>> 20) ^^^ ((addr >>> 4) % 64)) % 64
      ∧ fallback.lock_for_addr (a + d) = fallback.lock_for_addr a := by
  constructor
  · show ((addr >>> 4) >>> 16 ^^^ (addr >>> 4 &&& (fallback.SPINLOCKS_len - 1)))
        &&& (fallback.SPINLOCKS_len - 1) = _
    have hlen : fallback.SPINLOCKS_len - 1 = 63 := rfl
    rw [hlen, land_63_eq_mod, land_63_eq_mod, ← Nat.shiftRight_add]
  · show ((((a + d) >>> 4) >>> 16) ^^^ ((a + d) >>> 4 &&& (fallback.SPINLOCKS_len - 1)))
        &&& (fallback.SPINLOCKS_len - 1) = _
    rw [← h]
    rfl

/-- Claim C9 amended, witness: address 100 matches the two-stage hash, and
addresses 32 and 32 + 8 lie in one 16-byte block and share a lock cell. -/
theorem C9_hash_structure_witness :
    fallback.lock_for_addr 100 = ((100 >>> 20) ^^^ ((100 >>> 4) % 64)) % 64
      ∧ fallback.lock_for_addr (32 + 8) = fallback.lock_for_addr 32 :=
  C9_hash_structure 100 32 8 (by decide)

/-- Claim C10: lock_for_addr is a total function computing, for every
address, an index strictly below 64, so the access into the 64-entry
SPINLOCKS table is always in bounds, and equal addresses always get the
same cell. -/
theorem C10_lock_index_in_bounds (addr : Nat) : fallback.lock_for_addr addr < 64 := by
  have h : fallback.lock_for_addr addr ≤ 63 := by
    show (((addr >>> 4) >>> 16) ^^^ (addr >>> 4 &&& (fallback.SPINLOCKS_len - 1)))
        &&& (fallback.SPINLOCKS_len - 1) ≤ _
    exact Nat.and_le_right
  omega
